import Mathlib

/-!
A shallow embedding of the station-search and temperature-query operations of
the poc_ae_wetterdaten repository, taken from the source files
`src/api/mock.ts` (the implementation behind `searchStations` and
`fetchTemperatures` in `src/api/client.ts`) and `App.tsx`
(`normalizeSearchParams`), together with theorems settling the frozen claims.

Modelling conventions.

* JavaScript numbers are embedded as exact rationals; binary64 rounding is
  outside the model.
* `Math.random()` is made explicit as a stream `supply : Nat -> Rat` of draws,
  consumed in the order in which the source calls `randomBetween`.  The
  JavaScript contract for a draw is `0 <= supply n < 1`.
* JavaScript strings are `String`; the parsing helpers work on `String.data`
  so that every definition reduces in the kernel.
* `Math.sin` is a binary64 transcendental function with no exact rational
  embedding; it is modelled by a cubic Taylor polynomial `mathSin`.  It only
  feeds the synthetic temperature magnitudes and no theorem in this file
  depends on the values it takes.
* `Date.parse` (and the equivalent `new Date(string)`) is modelled on the
  strict ISO forms `YYYY-MM-DD`, `YYYY-MM` and `YYYY`, the forms this
  application produces and consumes; engine-specific lenient formats are not
  modelled.  Local time is identified with UTC and timestamps are counted in
  whole days instead of milliseconds, which preserves every comparison the
  source performs.
* A JavaScript `NaN` arising from a failed parse is modelled as `none`.
-/

attribute [local semireducible] Rat.add Rat.mul Rat.sub Rat.inv Rat.ofScientific

set_option maxRecDepth 100000

namespace Wetter

/-- Value of a list of decimal digit characters. -/
def digitsToNat (cs : List Char) : ℕ :=
  cs.foldl (fun a c => a * 10 + (c.toNat - 48)) 0

/-- True when the list is a nonempty run of decimal digits. -/
def allDigits (cs : List Char) : Bool :=
  !cs.isEmpty && cs.all Char.isDigit

/-- JavaScript `String.prototype.split` with a one-character separator. -/
def splitOnChar (c : Char) : List Char → List (List Char)
  | [] => [[]]
  | x :: xs =>
    let r := splitOnChar c xs
    if x = c then [] :: r
    else
      match r with
      | [] => [[x]]
      | h :: t => (x :: h) :: t

/-- Drop JavaScript whitespace from both ends (String.prototype.trim). -/
def trimChars (cs : List Char) : List Char :=
  ((cs.dropWhile Char.isWhitespace).reverse.dropWhile Char.isWhitespace).reverse

/-- `Number(string)` as used on the pieces of a station identifier: the
empty (trimmed) string is 0 and a string of decimal digits (optionally with
a leading plus sign) is its value.  Other shapes, which this code never
produces from an identifier piece that parses, are NaN, i.e. `none`; the
fractional, hexadecimal and exponent literal forms accepted by JavaScript
are folded into the NaN case, which leaves every downstream observation
(an unparseable availability date string) unchanged. -/
def jsNumberInt (s : List Char) : Option ℤ :=
  let t := trimChars s
  if t.isEmpty then some 0
  else
    let t2 := if t.headD ' ' = '+' then t.tail else t
    if allDigits t2 then some ((digitsToNat t2 : ℕ) : ℤ) else none

/-- Gregorian leap-year test (JavaScript Date arithmetic is proleptic
Gregorian). -/
def isLeap (y : ℤ) : Bool :=
  (y.tmod 4 = 0 && y.tmod 100 ≠ 0) || y.tmod 400 = 0

/-- Length of a month, for validating strict ISO dates. -/
def daysInMonth (y m : ℤ) : ℤ :=
  if m = 2 then (if isLeap y then 29 else 28)
  else if m = 4 ∨ m = 6 ∨ m = 9 ∨ m = 11 then 30
  else 31

/-- Days since the Unix epoch of a civil date, standard days-from-civil
computation; the month must be in 1..12, the day may lie outside the
month and simply offsets from the first of the month. -/
def daysFromCivil (y m d : ℤ) : ℤ :=
  let y2 := if m ≤ 2 then y - 1 else y
  let era := y2.fdiv 400
  let yoe := y2 - era * 400
  let mp := (m + 9).emod 12
  let doy := (153 * mp + 2).fdiv 5 + d - 1
  let doe := yoe * 365 + yoe.fdiv 4 - yoe.fdiv 100 + doy
  era * 146097 + doe - 719468

/-- Date construction with the JavaScript rollover rule of
`new Date(y, m, d)`: months outside 1..12 shift the year, days outside the
month shift the month. -/
def civilDays (y m d : ℤ) : ℤ :=
  let mz := m - 1
  daysFromCivil (y + mz.fdiv 12) (mz.emod 12 + 1) d

/-- Strict ISO parse: `YYYY-MM-DD`, `YYYY-MM` or `YYYY` with calendar
validity, giving year, month and day. -/
def isoParse (s : String) : Option (ℤ × ℤ × ℤ) :=
  match splitOnChar '-' s.data with
  | [ys, ms, ds] =>
    if (ys.length = 4 && ms.length = 2 && ds.length = 2) &&
       (allDigits ys && allDigits ms && allDigits ds) then
      let y : ℤ := digitsToNat ys
      let m : ℤ := digitsToNat ms
      let d : ℤ := digitsToNat ds
      if 1 ≤ m ∧ m ≤ 12 ∧ 1 ≤ d ∧ d ≤ daysInMonth y m then some (y, m, d)
      else none
    else none
  | [ys, ms] =>
    if (ys.length = 4 && ms.length = 2) && (allDigits ys && allDigits ms) then
      let y : ℤ := digitsToNat ys
      let m : ℤ := digitsToNat ms
      if 1 ≤ m ∧ m ≤ 12 then some (y, m, 1) else none
    else none
  | [ys] =>
    if ys.length = 4 && allDigits ys then some ((digitsToNat ys : ℕ), 1, 1)
    else none
  | _ => none

/-- `Date.parse` on the ISO forms, as whole days since the epoch. -/
def jsDateParse (s : String) : Option ℤ :=
  (isoParse s).map fun x => daysFromCivil x.1 x.2.1 x.2.2

/-- Separator class of the fallback pattern in `parseDate`. -/
def isSepChar (c : Char) : Bool :=
  c = '.' || c = '-' || c = '/'

/-- The `dd.mm.yyyy` fallback of `parseDate` in mock.ts: one or two day
digits, a separator among dot, dash and slash, one or two month digits,
another separator and exactly four year digits, with optional whitespace
around the separators, matched against the whole trimmed string; the date
is built by `new Date(yyyy, mm - 1, dd)`, hence with rollover and with the
JavaScript rule mapping years 0..99 to 1900..1999. -/
def regexFallback (s : String) : Option ℤ :=
  let cs := trimChars s.data
  let p1 := cs.span Char.isDigit
  if p1.1.length = 0 ∨ 2 < p1.1.length then none
  else
    match p1.2.dropWhile Char.isWhitespace with
    | [] => none
    | c :: r2 =>
      if isSepChar c = false then none
      else
        let p2 := (r2.dropWhile Char.isWhitespace).span Char.isDigit
        if p2.1.length = 0 ∨ 2 < p2.1.length then none
        else
          match p2.2.dropWhile Char.isWhitespace with
          | [] => none
          | c2 :: r4 =>
            if isSepChar c2 = false then none
            else
              let p3 := (r4.dropWhile Char.isWhitespace).span Char.isDigit
              if p3.1.length = 4 ∧ p3.2 = [] then
                let dd : ℤ := digitsToNat p1.1
                let mm : ℤ := digitsToNat p2.1
                let yyyy : ℤ := digitsToNat p3.1
                let y := if yyyy ≤ 99 then yyyy + 1900 else yyyy
                some (civilDays y mm dd)
              else none

/-- `parseDate` from mock.ts: `Date.parse` first, then the `dd.mm.yyyy`
fallback; `none` models NaN. -/
def parseDate (s : String) : Option ℤ :=
  match jsDateParse s with
  | some t => some t
  | none => regexFallback s

/-- `overlap` from mock.ts: all four bounds must parse, and the two closed
ranges must intersect. -/
def overlap (aFrom aTo bFrom bTo : String) : Bool :=
  match parseDate aFrom, parseDate aTo, parseDate bFrom, parseDate bTo with
  | some af, some at2, some bf, some bt => decide (af ≤ bt) && decide (bf ≤ at2)
  | _, _, _, _ => false

/-- `stationAvailability` from mock.ts: the numeric suffix of the
identifier (after the first dash, defaulting to 1 when absent) seeds a
synthetic availability window; a suffix that is not a number yields
unparseable `NaN-...` date strings. -/
def stationAvailability (stationId : String) : String × String :=
  let n : Option ℤ :=
    match (splitOnChar '-' stationId.data).get? 1 with
    | none => some 1
    | some part => jsNumberInt part
  match n with
  | some k =>
    (toString (1980 + k.tmod 5 * 5) ++ "-01-01",
     toString (2035 + k.tmod 6 * 2) ++ "-12-31")
  | none => ("NaN-01-01", "NaN-12-31")

/-- `clamp` from mock.ts: `Math.max(min, Math.min(max, n))`. -/
def clamp (n lo hi : ℤ) : ℤ :=
  max lo (min hi n)

/-- `randomBetween` from mock.ts with the `Math.random()` draw explicit:
`min + r * (max - min)`. -/
def randomBetween (r lo hi : ℚ) : ℚ :=
  lo + r * (hi - lo)

/-- `Number(x.toFixed(1))`: ECMA-262 toFixed first strips the sign (for
x below zero the sign is recorded and x replaced by its negation), then
picks the integer n minimising the distance of n / 10 to the magnitude,
taking the larger n on a tie — the floor of ten times the magnitude plus
one half.  Ties therefore round away from zero on both signs. -/
def jsToFixed1 (x : ℚ) : ℚ :=
  if x < 0 then -(((⌊10 * (-x) + 1/2⌋ : ℤ) : ℚ) / 10)
  else ((⌊10 * x + 1/2⌋ : ℤ) : ℚ) / 10

/-- `Number(x.toFixed(4))`, the same sign-stripping rule with four
digits. -/
def jsToFixed4 (x : ℚ) : ℚ :=
  if x < 0 then -(((⌊10000 * (-x) + 1/2⌋ : ℤ) : ℚ) / 10000)
  else ((⌊10000 * x + 1/2⌋ : ℤ) : ℚ) / 10000

/-- Station record of `types.ts`. -/
structure Station where
  id : String
  name : String
  lat : ℚ
  lon : ℚ
  distanceKm : ℚ
deriving DecidableEq, Inhabited

/-- Search parameters of `types.ts`; `fromDate` and `toDate` stand for the
optional `from` and `to` fields. -/
structure StationSearchParams where
  lat : ℚ
  lon : ℚ
  radiusKm : ℚ
  limit : ℤ
  fromDate : Option String
  toDate : Option String

/-- Temperature query of `types.ts`; `fromDate` and `toDate` stand for
`from` and `to`. -/
structure TemperatureQuery where
  stationId : String
  fromDate : String
  toDate : String

/-- Temperature point as constructed by mock.ts (`date`, `level` and the
three optional temperatures); a NaN temperature is modelled as `none`. -/
structure TemperaturePoint where
  date : String
  level : String
  tmin : Option ℚ
  tavg : Option ℚ
  tmax : Option ℚ
deriving DecidableEq, Inhabited

/-- Order used by the sort comparator `(a, b) => a.distanceKm - b.distanceKm`. -/
def byDistance (a b : Station) : Prop :=
  a.distanceKm ≤ b.distanceKm

instance : DecidableRel byDistance :=
  fun a b => inferInstanceAs (Decidable (a.distanceKm ≤ b.distanceKm))

instance : IsTotal Station byDistance :=
  ⟨fun a b => le_total a.distanceKm b.distanceKm⟩

instance : IsTrans Station byDistance :=
  ⟨fun _ _ _ => le_trans⟩

/-- `searchStationsMock` from mock.ts.  `Array.prototype.sort` with a
consistent comparator is a stable sort, modelled by `List.insertionSort`,
which is stable and sorted by `byDistance`, hence extensionally the same
function.  The candidate loop draws, per station, the distance and then the
two coordinate offsets.  The `console.log` diagnostics at the top evaluate
`overlap(..., params.from!, params.to!)`; when either field is `undefined`
this dereferences `undefined.trim()` and the call throws, modelled by
`none`.  The date filter runs only when both fields are truthy, that is,
present and nonempty. -/
def searchStationsMock (params : StationSearchParams) (supply : ℕ → ℚ) :
    Option (List Station) :=
  match params.fromDate, params.toDate with
  | some f, some t =>
    let limit := clamp params.limit 1 50
    let candidateCount := max (limit * 3) 30
    let stations := (List.range candidateCount.toNat).map fun i =>
      let distanceKm := jsToFixed1 (randomBetween (supply (3 * i)) (1/5) params.radiusKm)
      { id := "STA-" ++ toString (i + 1)
        name := "Station " ++ toString (i + 1)
        lat := jsToFixed4 (params.lat + randomBetween (supply (3 * i + 1)) (-(1/5)) (1/5))
        lon := jsToFixed4 (params.lon + randomBetween (supply (3 * i + 2)) (-(1/5)) (1/5))
        distanceKm := distanceKm : Station }
    let sorted := stations.insertionSort byDistance
    let filtered :=
      if f ≠ "" ∧ t ≠ "" then
        sorted.filter fun s =>
          let avail := stationAvailability s.id
          overlap avail.1 avail.2 f t
      else sorted
    some (filtered.take limit.toNat)
  | _, _ => none

/-- `monthsBetweenInclusive` from mock.ts: number of iterations of the
month-counting loop from the first of the from-month through the first of
the to-month; the safety break after incrementing past 2400 caps the count
at 2401, and an invalid date yields zero iterations. -/
def monthsBetweenInclusive (fromS toS : String) : ℤ :=
  match isoParse fromS, isoParse toS with
  | some (ya, ma, _), some (yb, mb, _) =>
    let span := (yb * 12 + mb) - (ya * 12 + ma) + 1
    if span ≤ 0 then 0 else min span 2401
  | _, _ => 0

/-- `monthKey` from mock.ts: `YYYY-MM` with the month zero-padded to two
digits. -/
def monthKey (y m : ℤ) : String :=
  toString y ++ "-" ++ (if m < 10 then "0" ++ toString m else toString m)

/-- `monthKey` of a zero-based absolute month index; `addMonths` applied to
the first of a month is exact arithmetic on this index. -/
def monthKeyAt (ym : ℤ) : String :=
  monthKey (ym.fdiv 12) (ym.emod 12 + 1)

/-- The exact rational value of the binary64 constant `Math.PI`. -/
def mathPI : ℚ :=
  3141592653589793 / 1000000000000000

/-- Stand-in for `Math.sin`, a binary64 transcendental with no exact
rational embedding: a cubic Taylor polynomial.  It only shapes the
synthetic temperature values; no theorem in this file depends on the
values it takes. -/
def mathSin (x : ℚ) : ℚ :=
  x - x ^ 3 / 6

/-- `fetchTemperaturesMock` from mock.ts.  The `dayOfYear` expression
`Math.floor((Date.UTC(y, m, 15) - Date.UTC(y, 0, 0)) / 86400000)` is an
exact whole-day difference, `Date.UTC(y, 0, 0)` being the zeroth of
January, i.e. the last of December of the previous year.  When
`new Date(q.from)` is invalid although the overlap gate passed (a
regex-parsed `from`), the loop still runs and produces `NaN-NaN` dates and
NaN temperatures, modelled by `none` fields. -/
def fetchTemperaturesMock (q : TemperatureQuery) (supply : ℕ → ℚ) :
    List TemperaturePoint :=
  let avail := stationAvailability q.stationId
  if overlap avail.1 avail.2 q.fromDate q.toDate then
    let nMonths := (clamp (monthsBetweenInclusive q.fromDate q.toDate) 1 2400).toNat
    let base := randomBetween (supply 0) 5 14
    let amp := randomBetween (supply 1) 6 14
    match isoParse q.fromDate with
    | some (y0, m0, _) =>
      (List.range nMonths).map fun i =>
        let ym : ℤ := y0 * 12 + (m0 - 1) + (i : ℕ)
        let y := ym.fdiv 12
        let m := ym.emod 12 + 1
        let dayOfYear := daysFromCivil y m 15 - civilDays y 1 0
        let seasonal := base + amp * mathSin (2 * mathPI * ((dayOfYear : ℚ) - 30) / 365)
        let tavg := seasonal + randomBetween (supply (3 * i + 2)) (-1) 1
        let tmin := tavg - randomBetween (supply (3 * i + 3)) 2 5
        let tmax := tavg + randomBetween (supply (3 * i + 4)) 2 5
        { date := monthKey y m
          level := "month"
          tmin := some (jsToFixed1 tmin)
          tavg := some (jsToFixed1 tavg)
          tmax := some (jsToFixed1 tmax) : TemperaturePoint }
    | none =>
      (List.range nMonths).map fun _ =>
        { date := "NaN-NaN", level := "month",
          tmin := none, tavg := none, tmax := none : TemperaturePoint }
  else []

/-- Lexicographic comparison of character lists by code unit. -/
def charsLt : List Char → List Char → Bool
  | [], [] => false
  | [], _ :: _ => true
  | _ :: _, [] => false
  | a :: as2, b :: bs2 =>
    if a.val < b.val then true
    else if b.val < a.val then false
    else charsLt as2 bs2

/-- JavaScript string comparison, lexicographic on UTF-16 code units
(all strings in play are ASCII). -/
def jsStringLt (a b : String) : Bool :=
  charsLt a.data b.data

/-- `normalizeSearchParams` from App.tsx: clamps the radius into 1..100 and
the limit into 1..10 and throws (here `none`) when `from > to` in the
JavaScript string order. -/
def normalizeSearchParams (radiusKm limit : ℚ) (fromS toS : String) :
    Option (ℚ × ℚ) :=
  if jsStringLt toS fromS then none
  else some (max 1 (min 100 radiusKm), max 1 (min 10 limit))

/-- Modelled from the spec: round half away from zero to one decimal
place, the rounding rule the specification prescribes for output
temperatures. -/
def specRound1 (x : ℚ) : ℚ :=
  if 0 ≤ x then ((⌊10 * x + 1/2⌋ : ℤ) : ℚ) / 10
  else -(((⌊10 * (-x) + 1/2⌋ : ℤ) : ℚ) / 10)

/-- Heron iteration for a rational square-root approximation. -/
def heron (x : ℚ) : ℕ → ℚ → ℚ
  | 0, g => g
  | n + 1, g => heron x n ((g + x / g) / 2)

/-- Rational square-root stand-in, exact at zero. -/
def ratSqrt (x : ℚ) : ℚ :=
  if x ≤ 0 then 0 else heron x 8 x

/-- Rational cosine stand-in (Taylor), exact at zero. -/
def ratCos (x : ℚ) : ℚ :=
  1 - x ^ 2 / 2 + x ^ 4 / 24

/-- Rational arcsine stand-in (Taylor), exact at zero. -/
def ratAsin (x : ℚ) : ℚ :=
  x + x ^ 3 / 6

/-- Degrees to radians. -/
def degToRad (d : ℚ) : ℚ :=
  d * mathPI / 180

/-- Modelled from the spec: the haversine great-circle distance in
kilometres between two points given as latitude-longitude pairs in decimal
degrees (mean earth radius 6371 km).  The transcendental pieces are the
rational stand-ins above; they are exact at zero, and zero separation is
the only place a theorem below evaluates this function. -/
def haversineKm (p q : ℚ × ℚ) : ℚ :=
  let phi1 := degToRad p.1
  let phi2 := degToRad q.1
  let dphi := degToRad (q.1 - p.1)
  let dlam := degToRad (q.2 - p.2)
  let h := mathSin (dphi / 2) ^ 2 + ratCos phi1 * ratCos phi2 * mathSin (dlam / 2) ^ 2
  2 * 6371 * ratAsin (ratSqrt h)

/-! ## Helper lemmas -/

theorem clamp_idem (n lo hi : ℤ) : clamp (clamp n lo hi) lo hi = clamp n lo hi := by
  unfold clamp
  omega

theorem jsToFixed1_den (x : ℚ) : (10 * jsToFixed1 x).den = 1 := by
  unfold jsToFixed1
  split
  · rw [show (10 : ℚ) * -(((⌊10 * (-x) + 1/2⌋ : ℤ) : ℚ) / 10)
        = ((-⌊10 * (-x) + 1/2⌋ : ℤ) : ℚ) by push_cast; ring]
    exact Rat.den_intCast _
  · rw [show (10 : ℚ) * (((⌊10 * x + 1/2⌋ : ℤ) : ℚ) / 10)
        = ((⌊10 * x + 1/2⌋ : ℤ) : ℚ) by ring]
    exact Rat.den_intCast _

theorem jsToFixed1_mono {x y : ℚ} (h : x ≤ y) : jsToFixed1 x ≤ jsToFixed1 y := by
  unfold jsToFixed1
  split
  · split
    · rename_i hx hy
      have hf : ⌊10 * (-y) + 1/2⌋ ≤ ⌊10 * (-x) + 1/2⌋ := Int.floor_mono (by linarith)
      have hc : ((⌊10 * (-y) + 1/2⌋ : ℤ) : ℚ) ≤ ((⌊10 * (-x) + 1/2⌋ : ℤ) : ℚ) := by
        exact_mod_cast hf
      linarith
    · rename_i hx hy
      have ha : (0 : ℤ) ≤ ⌊10 * (-x) + 1/2⌋ := Int.floor_nonneg.2 (by linarith)
      have hb : (0 : ℤ) ≤ ⌊10 * y + 1/2⌋ := by
        refine Int.floor_nonneg.2 ?_
        have := not_lt.1 hy
        linarith
      have ha2 : (0 : ℚ) ≤ ((⌊10 * (-x) + 1/2⌋ : ℤ) : ℚ) := by exact_mod_cast ha
      have hb2 : (0 : ℚ) ≤ ((⌊10 * y + 1/2⌋ : ℤ) : ℚ) := by exact_mod_cast hb
      have h1 : -(((⌊10 * (-x) + 1/2⌋ : ℤ) : ℚ) / 10) ≤ 0 :=
        neg_nonpos.2 (div_nonneg ha2 (by norm_num))
      have h2 : (0 : ℚ) ≤ ((⌊10 * y + 1/2⌋ : ℤ) : ℚ) / 10 :=
        div_nonneg hb2 (by norm_num)
      linarith
  · split
    · rename_i hx hy
      exact absurd hy (by push_neg at hx ⊢; linarith)
    · rename_i hx hy
      have hf : ⌊10 * x + 1/2⌋ ≤ ⌊10 * y + 1/2⌋ := Int.floor_mono (by linarith)
      have hc : ((⌊10 * x + 1/2⌋ : ℤ) : ℚ) ≤ ((⌊10 * y + 1/2⌋ : ℤ) : ℚ) := by
        exact_mod_cast hf
      linarith

/-- A search result is a suffix of the pipeline: every returned station is
one of the generated candidates, with the modelled distance draw. -/
theorem searchStations_mem_distance (p : StationSearchParams) (su : ℕ → ℚ)
    (out : List Station) (s : Station)
    (h : searchStationsMock p su = some out) (hs : s ∈ out) :
    ∃ i : ℕ, s.distanceKm = jsToFixed1 (randomBetween (su (3 * i)) (1/5) p.radiusKm) := by
  rcases p with ⟨plat, plon, prad, plim, pf, pt⟩
  cases pf with
  | none => simp [searchStationsMock] at h
  | some f =>
    cases pt with
    | none => simp [searchStationsMock] at h
    | some t =>
      simp only [searchStationsMock, Option.some.injEq] at h
      subst h
      have h1 := List.take_subset _ _ hs
      have h2 : s ∈ (((List.range (max (clamp plim 1 50 * 3) 30).toNat).map fun i =>
          { id := "STA-" ++ toString (i + 1)
            name := "Station " ++ toString (i + 1)
            lat := jsToFixed4 (plat + randomBetween (su (3 * i + 1)) (-(1/5)) (1/5))
            lon := jsToFixed4 (plon + randomBetween (su (3 * i + 2)) (-(1/5)) (1/5))
            distanceKm := jsToFixed1 (randomBetween (su (3 * i)) (1/5) prad) : Station })
            |>.insertionSort byDistance) := by
        by_cases hc : f ≠ "" ∧ t ≠ ""
        · rw [if_pos hc] at h1
          exact (List.mem_filter.1 h1).1
        · rw [if_neg hc] at h1
          exact h1
      rw [List.mem_insertionSort] at h2
      obtain ⟨i, _, rfl⟩ := List.mem_map.1 h2
      exact ⟨i, rfl⟩

/-! ## Claim C1: result ordering of the station search -/

/-- Parameters of a concrete search: Munich-like query with default limit,
valid dates, all random draws zero (every candidate gets distance 0.2). -/
def c1Params : StationSearchParams :=
  { lat := 0, lon := 0, radiusKm := 50, limit := 10,
    fromDate := some "2010-01-01", toDate := some "2010-12-31" }

/-- The list returned by that search. -/
def c1Out : List Station :=
  (searchStationsMock c1Params (fun _ => 0)).getD []

/-- Claim C1, counterexample: in the search `c1Params` every candidate
draws the same distance 0.2 km, and the returned list keeps the stable
generation order STA-1, STA-2, ..., STA-10.  The stations at positions 1
and 9 have equal `distanceKm`, yet the lexically smaller identifier
STA-10 comes after STA-2: the comparator only looks at `distanceKm`, and
there is no identifier tie-break. -/
theorem c1_counterexample :
    ((c1Out.get? 1).map Station.id = some "STA-2" ∧
      (c1Out.get? 9).map Station.id = some "STA-10") ∧
    ((c1Out.get? 1).map Station.distanceKm = some (1/5) ∧
      (c1Out.get? 9).map Station.distanceKm = some (1/5)) ∧
    jsStringLt "STA-10" "STA-2" = true := by
  decide

/-- Claim C1 (amended): every successful station search returns a list
ordered by ascending `distanceKm`; stations with equal distance keep the
stable-sort generation order, and identifiers are never compared. -/
theorem c1_amended (p : StationSearchParams) (su : ℕ → ℚ)
    (out : List Station) (h : searchStationsMock p su = some out) :
    out.Pairwise byDistance := by
  rcases p with ⟨plat, plon, prad, plim, pf, pt⟩
  cases pf with
  | none => simp [searchStationsMock] at h
  | some f =>
    cases pt with
    | none => simp [searchStationsMock] at h
    | some t =>
      simp only [searchStationsMock, Option.some.injEq] at h
      subst h
      apply List.Pairwise.sublist (List.take_sublist _ _)
      by_cases hc : f ≠ "" ∧ t ≠ ""
      · rw [if_pos hc]
        exact (List.sorted_insertionSort byDistance _).filter _
      · rw [if_neg hc]
        exact List.sorted_insertionSort byDistance _

/-- Claim C1, witness: the amended ordering theorem applied to the
concrete search `c1Params`. -/
theorem c1_witness : c1Out.Pairwise byDistance :=
  c1_amended c1Params (fun _ => 0) c1Out (by decide)

/-! ## Claim C3: out-of-range radius and limit -/

/-- Claim C3, counterexample: with radiusKm = 500 and limit = 999, both
far outside the allowed ranges 1..100 and 1..50, the search succeeds and
returns exactly 50 stations: the limit is silently clamped into 1..50,
the radius is used as drawn, and no InvalidParameter failure exists. -/
theorem c3_counterexample :
    (searchStationsMock
        { lat := 0, lon := 0, radiusKm := 500, limit := 999,
          fromDate := some "", toDate := some "" }
        (fun _ => 0)).map List.length = some 50 := by
  decide

/-- Claim C3 (amended): the search treats any limit exactly as its clamp
into 1..50 — out-of-range limits are silently clamped rather than
rejected, and the radius is not validated at all (the caller-facing
`normalizeSearchParams` in App.tsx separately clamps the radius into
1..100 and the limit into 1..10). -/
theorem c3_amended (p : StationSearchParams) (su : ℕ → ℚ) :
    searchStationsMock p su
      = searchStationsMock { p with limit := clamp p.limit 1 50 } su := by
  rcases p with ⟨plat, plon, prad, plim, pf, pt⟩
  cases pf <;> cases pt <;> simp [searchStationsMock, clamp_idem]

/-! ## Claim C5: distanceKm versus the haversine distance -/

/-- Query at (48.14, 11.58) with radius 50 and limit 5, as in the
specification example. -/
def c5Params : StationSearchParams :=
  { lat := 4814/100, lon := 1158/100, radiusKm := 50, limit := 5,
    fromDate := some "2010-01-01", toDate := some "2010-12-31" }

/-- Draws: every distance draw is 34/249 (giving exactly 7 km), every
coordinate-offset draw is 1/2 (giving offset exactly 0). -/
def c5Supply : ℕ → ℚ :=
  fun n => if n % 3 = 0 then 34/249 else 1/2

/-- The list returned by that search. -/
def c5Out : List Station :=
  (searchStationsMock c5Params c5Supply).getD []

/-- Claim C5, counterexample: in the search `c5Params` with the valid
draws `c5Supply`, the first returned station reports exactly the query
point as its coordinates and 7.0 as `distanceKm`, while the haversine
distance between a point and itself is 0 — off by far more than the
claimed 0.1 km.  The drawn distance is independent of the coordinates. -/
theorem c5_counterexample :
    ((c5Out.get? 0).map (fun s => (s.lat, s.lon, s.distanceKm))
        = some (4814/100, 1158/100, 7)) ∧
    haversineKm (4814/100, 1158/100) (4814/100, 1158/100) = 0 ∧
    ¬ ((7 : ℚ) - haversineKm (4814/100, 1158/100) (4814/100, 1158/100) ≤ 1/10) ∧
    (0 ≤ (34/249 : ℚ) ∧ (34/249 : ℚ) < 1) ∧ (0 ≤ (1/2 : ℚ) ∧ (1/2 : ℚ) < 1) := by
  decide

/-- Claim C5 (amended): for valid draws and an integer radius of at least
1 km, every returned distanceKm is a one-decimal value of at most
radiusKm; it is a fresh random draw from 0.2..radiusKm and bears no
relation to the haversine distance to the reported coordinates. -/
theorem c5_amended (p : StationSearchParams) (su : ℕ → ℚ)
    (hsu : ∀ n, 0 ≤ su n ∧ su n < 1)
    (hden : p.radiusKm.den = 1) (hrad : 1 ≤ p.radiusKm)
    (out : List Station) (s : Station)
    (h : searchStationsMock p su = some out) (hs : s ∈ out) :
    s.distanceKm ≤ p.radiusKm ∧ (10 * s.distanceKm).den = 1 := by
  obtain ⟨i, hd⟩ := searchStations_mem_distance p su out s h hs
  have hR : ((p.radiusKm.num : ℤ) : ℚ) = p.radiusKm := by
    have h1 := Rat.num_div_den p.radiusKm
    rw [hden] at h1
    simpa using h1
  constructor
  · rw [hd]
    have h0 := (hsu (3 * i)).1
    have h1 := (hsu (3 * i)).2
    have hvR : randomBetween (su (3 * i)) (1/5) p.radiusKm < p.radiusKm := by
      unfold randomBetween
      nlinarith
    have hfloor : ⌊10 * randomBetween (su (3 * i)) (1/5) p.radiusKm + 1/2⌋
        ≤ 10 * p.radiusKm.num := by
      rw [Int.floor_le_iff]
      push_cast
      rw [hR]
      linarith
    have hv0 : ¬ randomBetween (su (3 * i)) (1/5) p.radiusKm < 0 := by
      unfold randomBetween
      push_neg
      nlinarith
    unfold jsToFixed1
    rw [if_neg hv0]
    calc ((⌊10 * randomBetween (su (3 * i)) (1/5) p.radiusKm + 1/2⌋ : ℤ) : ℚ) / 10
        ≤ ((10 * p.radiusKm.num : ℤ) : ℚ) / 10 :=
          (div_le_div_iff_of_pos_right (by norm_num)).2 (by exact_mod_cast hfloor)
      _ = p.radiusKm := by
          push_cast
          rw [mul_comm, mul_div_assoc]
          norm_num
          exact hR
  · rw [hd]
    exact jsToFixed1_den _

/-- Claim C5, witness: the amended bound applied to the concrete search
`c5Params` with the valid draws `c5Supply`. -/
theorem c5_witness :
    c5Out.headI.distanceKm ≤ (50 : ℚ) ∧ (10 * c5Out.headI.distanceKm).den = 1 :=
  c5_amended c5Params c5Supply
    (fun n => by unfold c5Supply; split <;> norm_num)
    (by decide) (by decide) c5Out c5Out.headI (by decide) (by decide)

/-! ## Claim C6: the date filter restricts results to overlapping coverage -/

/-- Claim C6 (confirmed): when both date-range ends are supplied and
parse, every station in a successful search result has a synthetic
availability window overlapping the requested range — the filter in
`searchStationsMock` keeps exactly the stations whose availability
overlaps. -/
theorem c6_confirmed (p : StationSearchParams) (su : ℕ → ℚ)
    (out : List Station) (s : Station) (f t : String)
    (hpf : p.fromDate = some f) (hpt : p.toDate = some t)
    (hfp : parseDate f ≠ none) (htp : parseDate t ≠ none)
    (h : searchStationsMock p su = some out) (hs : s ∈ out) :
    overlap (stationAvailability s.id).1 (stationAvailability s.id).2 f t = true := by
  have hfne : f ≠ "" := by
    intro hcon
    exact hfp (by rw [hcon]; decide)
  have htne : t ≠ "" := by
    intro hcon
    exact htp (by rw [hcon]; decide)
  rcases p with ⟨plat, plon, prad, plim, pf, pt⟩
  simp only at hpf hpt
  subst hpf hpt
  simp only [searchStationsMock, Option.some.injEq] at h
  subst h
  rw [if_pos ⟨hfne, htne⟩] at hs
  have h1 := List.take_subset _ _ hs
  exact (List.mem_filter.1 h1).2

/-- Parameters of the concrete search used as the C6 witness. -/
def c6Params : StationSearchParams :=
  { lat := 0, lon := 0, radiusKm := 50, limit := 5,
    fromDate := some "2010-01-01", toDate := some "2010-12-31" }

/-- The list returned by that search. -/
def c6Out : List Station :=
  (searchStationsMock c6Params (fun _ => 0)).getD []

/-- Claim C6, witness: the confirmed filter property applied to the
concrete search `c6Params`, at its first returned station. -/
theorem c6_witness :
    overlap (stationAvailability c6Out.headI.id).1
      (stationAvailability c6Out.headI.id).2 "2010-01-01" "2010-12-31" = true :=
  c6_confirmed c6Params (fun _ => 0) c6Out c6Out.headI "2010-01-01" "2010-12-31"
    rfl rfl (by decide) (by decide) (by decide) (by decide)

/-! ## Claim C10: unparseable date strings -/

/-- When either query bound fails to parse, `overlap` is false whatever
the availability strings are. -/
theorem overlap_unparseable (a1 a2 f t : String)
    (h : parseDate f = none ∨ parseDate t = none) :
    overlap a1 a2 f t = false := by
  unfold overlap
  rcases h with h | h <;>
    cases h1 : parseDate a1 <;> cases h2 : parseDate a2 <;>
      cases h3 : parseDate f <;> cases h4 : parseDate t <;> simp_all

/-- Search parameters with an empty from string, the date that breaks the
original claim. -/
def c10Params : StationSearchParams :=
  { lat := 0, lon := 0, radiusKm := 50, limit := 10,
    fromDate := some "", toDate := some "2020-12-31" }

/-- Claim C10, counterexample: the empty string is not a parseable date,
yet a search supplying it as the from bound returns 10 stations instead
of none — the JavaScript truthiness test `params.from && params.to` is
false for the empty string, so the date filter is silently skipped. -/
theorem c10_counterexample :
    parseDate "" = none ∧
    (searchStationsMock c10Params (fun _ => 0)).map List.length = some 10 := by
  decide

/-- Claim C10 (amended): for nonempty unparseable date strings the claim
holds: a search whose supplied from or to string does not parse returns
the empty station list, and a temperature query whose from or to string
does not parse returns the empty list; neither operation fails. -/
theorem c10_amended (p : StationSearchParams) (su : ℕ → ℚ)
    (q : TemperatureQuery) (su2 : ℕ → ℚ) (f t : String)
    (hpf : p.fromDate = some f) (hpt : p.toDate = some t)
    (hfne : f ≠ "") (htne : t ≠ "")
    (hbad : parseDate f = none ∨ parseDate t = none)
    (hqbad : parseDate q.fromDate = none ∨ parseDate q.toDate = none) :
    searchStationsMock p su = some [] ∧ fetchTemperaturesMock q su2 = [] := by
  constructor
  · rcases p with ⟨plat, plon, prad, plim, pf, pt⟩
    simp only at hpf hpt
    subst hpf hpt
    simp only [searchStationsMock, Option.some.injEq]
    rw [if_pos ⟨hfne, htne⟩]
    rw [List.filter_eq_nil_iff.mpr
      (fun s _ => by simp [overlap_unparseable _ _ _ _ hbad])]
    exact List.take_nil
  · simp [fetchTemperaturesMock, overlap_unparseable _ _ _ _ hqbad]

/-- Search parameters with a nonempty unparseable from string. -/
def c10wParams : StationSearchParams :=
  { lat := 0, lon := 0, radiusKm := 50, limit := 10,
    fromDate := some "not-a-date", toDate := some "2020-12-31" }

/-- Claim C10, witness: the amended theorem applied to a concrete search
and temperature query with the unparseable bound string not-a-date. -/
theorem c10_witness :
    searchStationsMock c10wParams (fun _ => 0) = some [] ∧
    fetchTemperaturesMock ⟨"STA-1", "not-a-date", "2020-12-31"⟩ (fun _ => 0) = [] :=
  c10_amended c10wParams (fun _ => 0)
    ⟨"STA-1", "not-a-date", "2020-12-31"⟩ (fun _ => 0)
    "not-a-date" "2020-12-31" rfl rfl (by decide) (by decide)
    (Or.inl (by decide)) (Or.inl (by decide))

/-! ## Shape lemmas for the temperature query -/

/-- A temperature query whose range does not overlap the synthetic
availability returns the empty list. -/
theorem fetch_empty_of_not_overlap (q : TemperatureQuery) (su : ℕ → ℚ)
    (h : overlap (stationAvailability q.stationId).1
      (stationAvailability q.stationId).2 q.fromDate q.toDate = false) :
    fetchTemperaturesMock q su = [] := by
  simp [fetchTemperaturesMock, h]

/-- A temperature query whose range overlaps the synthetic availability
returns one point per counted month, the count clamped into 1..2400. -/
theorem fetch_length_of_overlap (q : TemperatureQuery) (su : ℕ → ℚ)
    (h : overlap (stationAvailability q.stationId).1
      (stationAvailability q.stationId).2 q.fromDate q.toDate = true) :
    (fetchTemperaturesMock q su).length
      = (clamp (monthsBetweenInclusive q.fromDate q.toDate) 1 2400).toNat := by
  unfold fetchTemperaturesMock
  simp only [h, if_true]
  rcases hp : isoParse q.fromDate with _ | ⟨y0, m0, d0⟩ <;> simp [hp]

/-- The month and day bounds guaranteed by a successful strict ISO parse. -/
theorem isoParse_bounds (s : String) (y m d : ℤ)
    (h : isoParse s = some (y, m, d)) :
    1 ≤ m ∧ m ≤ 12 ∧ 1 ≤ d ∧ d ≤ 31 := by
  have hdm : ∀ yy mm : ℤ, daysInMonth yy mm ≤ 31 := by
    intro yy mm
    unfold daysInMonth
    split
    · split <;> omega
    · split <;> omega
  unfold isoParse at h
  split at h
  · split at h
    · dsimp only at h
      split at h
      · rename_i hcond
        simp only [Option.some.injEq, Prod.mk.injEq] at h
        obtain ⟨rfl, rfl, rfl⟩ := h
        exact ⟨hcond.1, hcond.2.1, hcond.2.2.1, le_trans hcond.2.2.2 (hdm _ _)⟩
      · exact absurd h (by simp)
    · exact absurd h (by simp)
  · split at h
    · dsimp only at h
      split at h
      · rename_i hcond
        simp only [Option.some.injEq, Prod.mk.injEq] at h
        obtain ⟨rfl, rfl, rfl⟩ := h
        omega
      · exact absurd h (by simp)
    · exact absurd h (by simp)
  · split at h
    · simp only [Option.some.injEq, Prod.mk.injEq] at h
      obtain ⟨rfl, rfl, rfl⟩ := h
      omega
    · exact absurd h (by simp)
  · exact absurd h (by simp)

/-! ## Claim C9: unknown station identifiers -/

/-- The temperature query used in the C9 counterexample: a station
identifier that no search ever returns. -/
def c9Query : TemperatureQuery :=
  { stationId := "UNKNOWN", fromDate := "2020-01-01", toDate := "2020-03-31" }

/-- Claim C9, counterexample: the operation never fails with NotFound.
An unknown identifier without a numeric suffix falls back to suffix 1,
receives the synthetic availability window 1985..2037, and the query
returns three months of synthetic data instead of failing. -/
theorem c9_counterexample :
    (fetchTemperaturesMock c9Query (fun _ => 0)).map TemperaturePoint.date
      = ["2020-01", "2020-02", "2020-03"] ∧
    stationAvailability "UNKNOWN" = ("1985-01-01", "2037-12-31") := by
  decide

/-- Claim C9 (amended): no NotFound failure exists.  Every station
identifier, known or not, is assigned a synthetic availability window
from its numeric suffix (default 1); a query overlapping that window
returns one synthetic point per counted month and a query outside it
returns the empty list. -/
theorem c9_amended (q : TemperatureQuery) (su : ℕ → ℚ) :
    (overlap (stationAvailability q.stationId).1
        (stationAvailability q.stationId).2 q.fromDate q.toDate = true →
      (fetchTemperaturesMock q su).length
        = (clamp (monthsBetweenInclusive q.fromDate q.toDate) 1 2400).toNat) ∧
    (overlap (stationAvailability q.stationId).1
        (stationAvailability q.stationId).2 q.fromDate q.toDate = false →
      fetchTemperaturesMock q su = []) :=
  ⟨fetch_length_of_overlap q su, fetch_empty_of_not_overlap q su⟩

/-- Claim C9, witness: the amended theorem applied to a concrete query
for station STA-3 over four months. -/
theorem c9_witness :
    (fetchTemperaturesMock
        { stationId := "STA-3", fromDate := "2021-02-01", toDate := "2021-05-10" }
        (fun _ => 0)).length = 4 := by
  have h := (c9_amended
    { stationId := "STA-3", fromDate := "2021-02-01", toDate := "2021-05-10" }
    (fun _ => 0)).1 (by decide)
  have h2 : (clamp (monthsBetweenInclusive "2021-02-01" "2021-05-10") 1 2400).toNat = 4 := by
    decide
  exact h.trans h2

/-! ## Claim C4: from after to -/

/-- Claim C4, counterexample: a query with from strictly after to is not
rejected: it still returns one synthetic data point, because the month
count is clamped below at 1 and the reversed range still passes the
availability overlap test. -/
theorem c4_counterexample :
    ((parseDate "2000-01-01").getD 0 < (parseDate "2000-06-01").getD 0) ∧
    (fetchTemperaturesMock
        { stationId := "STA-1", fromDate := "2000-06-01", toDate := "2000-01-01" }
        (fun _ => 0)).length = 1 := by
  decide

/-- Claim C4 (amended): the query performs no from-after-to validation.
For ISO dates with the from month at or after the to month (which covers
every reversed range), the result is exactly one synthetic point when the
range passes the availability overlap test, and empty otherwise. -/
theorem c4_amended (q : TemperatureQuery) (su : ℕ → ℚ)
    (yf mf df yt mt dt2 : ℤ)
    (hf : isoParse q.fromDate = some (yf, mf, df))
    (ht : isoParse q.toDate = some (yt, mt, dt2))
    (hge : yt * 12 + mt ≤ yf * 12 + mf) :
    (overlap (stationAvailability q.stationId).1
        (stationAvailability q.stationId).2 q.fromDate q.toDate = true →
      (fetchTemperaturesMock q su).length = 1) ∧
    (overlap (stationAvailability q.stationId).1
        (stationAvailability q.stationId).2 q.fromDate q.toDate = false →
      fetchTemperaturesMock q su = []) := by
  constructor
  · intro h
    rw [fetch_length_of_overlap q su h]
    unfold monthsBetweenInclusive clamp
    rw [hf, ht]
    dsimp only
    split <;> omega
  · exact fetch_empty_of_not_overlap q su

/-- Claim C4, witness: the amended theorem applied to a same-month
reversed query. -/
theorem c4_witness :
    (fetchTemperaturesMock
        { stationId := "STA-2", fromDate := "2010-09-15", toDate := "2010-09-01" }
        (fun _ => 0)).length = 1 :=
  (c4_amended
    { stationId := "STA-2", fromDate := "2010-09-15", toDate := "2010-09-01" }
    (fun _ => 0) 2010 9 15 2010 9 1 (by decide) (by decide) (by decide)).1 (by decide)

/-! ## Claim C2: which months appear in a temperature result -/

/-- The temperature query used in the C2 counterexample: it straddles the
end of the availability window of STA-1. -/
def c2Query : TemperatureQuery :=
  { stationId := "STA-1", fromDate := "2037-12-15", toDate := "2038-01-20" }

/-- Claim C2, counterexample: the availability window of STA-1 ends on
2037-12-31, so the month 2038-01 has no contributing daily value at all;
yet the query returns an entry for it.  Entries cover every month of the
requested range once the range merely overlaps the availability window,
instead of only the months with data. -/
theorem c2_counterexample :
    (fetchTemperaturesMock c2Query (fun _ => 0)).map TemperaturePoint.date
      = ["2037-12", "2038-01"] ∧
    (stationAvailability "STA-1").2 = "2037-12-31" ∧
    ((parseDate "2037-12-31").getD 0 < (parseDate "2038-01-01").getD 0) := by
  decide

/-- Claim C2 (amended): for ISO dates with from at most to, a query whose
range fails the availability overlap test returns the empty list, and
otherwise the result carries exactly one entry for every calendar month
from the from month through the to month (capped at 2400 entries),
consecutively and in chronologically ascending order, keyed year-month —
regardless of how much of the range the availability window covers. -/
theorem c2_amended (q : TemperatureQuery) (su : ℕ → ℚ)
    (yf mf df yt mt dt2 : ℤ)
    (hf : isoParse q.fromDate = some (yf, mf, df))
    (ht : isoParse q.toDate = some (yt, mt, dt2))
    (hle : yf * 10000 + mf * 100 + df ≤ yt * 10000 + mt * 100 + dt2) :
    (overlap (stationAvailability q.stationId).1
        (stationAvailability q.stationId).2 q.fromDate q.toDate = true →
      (fetchTemperaturesMock q su).map TemperaturePoint.date
        = (List.range ((min ((yt * 12 + mt) - (yf * 12 + mf) + 1) 2400).toNat)).map
            (fun i : ℕ => monthKeyAt (yf * 12 + (mf - 1) + (i : ℤ)))) ∧
    (overlap (stationAvailability q.stationId).1
        (stationAvailability q.stationId).2 q.fromDate q.toDate = false →
      fetchTemperaturesMock q su = []) := by
  have hbf := isoParse_bounds _ _ _ _ hf
  have hbt := isoParse_bounds _ _ _ _ ht
  have hm : yf * 12 + mf ≤ yt * 12 + mt := by omega
  constructor
  · intro h
    have hspan : (clamp (monthsBetweenInclusive q.fromDate q.toDate) 1 2400).toNat
        = (min ((yt * 12 + mt) - (yf * 12 + mf) + 1) 2400).toNat := by
      unfold monthsBetweenInclusive clamp
      rw [hf, ht]
      dsimp only
      split <;> omega
    unfold fetchTemperaturesMock
    simp only [h, if_true]
    rw [hf]
    dsimp only
    rw [hspan, List.map_map]
    rfl
  · exact fetch_empty_of_not_overlap q su

/-- Claim C2, witness: the amended theorem applied to a four-month query
on STA-1, listing the four consecutive year-month keys. -/
theorem c2_witness :
    (fetchTemperaturesMock
        { stationId := "STA-1", fromDate := "2020-11-10", toDate := "2021-02-05" }
        (fun _ => 0)).map TemperaturePoint.date
      = ["2020-11", "2020-12", "2021-01", "2021-02"] := by
  have h := (c2_amended
    { stationId := "STA-1", fromDate := "2020-11-10", toDate := "2021-02-05" }
    (fun _ => 0) 2020 11 10 2021 2 5 (by decide) (by decide) (by decide)).1 (by decide)
  exact h.trans (by decide)

/-! ## Claims C7 and C8: shape of the output temperatures -/

/-- Every point of a temperature result either has all temperature fields
absent (the NaN path) or carries three rounded values built from one raw
average and two nonnegative-by-contract draws. -/
theorem fetch_mem_cases (q : TemperatureQuery) (su : ℕ → ℚ)
    (pt : TemperaturePoint) (hpt : pt ∈ fetchTemperaturesMock q su) :
    (pt.tmin = none ∧ pt.tavg = none ∧ pt.tmax = none) ∨
    ∃ (pre : ℚ) (i : ℕ),
      pt.tmin = some (jsToFixed1 (pre - randomBetween (su (3 * i + 3)) 2 5)) ∧
      pt.tavg = some (jsToFixed1 pre) ∧
      pt.tmax = some (jsToFixed1 (pre + randomBetween (su (3 * i + 4)) 2 5)) := by
  by_cases hov : overlap (stationAvailability q.stationId).1
      (stationAvailability q.stationId).2 q.fromDate q.toDate = true
  · unfold fetchTemperaturesMock at hpt
    simp only [hov, if_true] at hpt
    rcases hiso : isoParse q.fromDate with _ | ⟨y0, m0, d0⟩
    · simp only [hiso] at hpt
      obtain ⟨i, hi, rfl⟩ := List.mem_map.1 hpt
      left
      exact ⟨rfl, rfl, rfl⟩
    · simp only [hiso] at hpt
      obtain ⟨i, hi, rfl⟩ := List.mem_map.1 hpt
      right
      exact ⟨_, i, rfl, rfl, rfl⟩
  · rw [fetch_empty_of_not_overlap q su (by simpa using hov)] at hpt
    exact absurd hpt (by simp)

/-- The raw seasonal average of the C7 witness month (January 2020,
mid-month day of year 15). -/
def c7SinJan : ℚ :=
  mathSin (2 * mathPI * (15 - 30) / 365)

/-- Valid draws steering the January 2020 query to a raw average of
exactly 3 and a raw minimum of exactly -5/4, a value exactly halfway
between two tenths. -/
def c7Supply : ℕ → ℚ := fun n =>
  if n = 2 then (-1 - 6 * c7SinJan) / 2 else if n = 3 then 3/4 else 0

/-- The one-month query of the C7 witness. -/
def c7Query : TemperatureQuery :=
  { stationId := "STA-1", fromDate := "2020-01-01", toDate := "2020-01-31" }

/-- Claim C7 (confirmed): every present output temperature is an exact
one-decimal value, and the rounding in use is exactly
round-half-away-from-zero: toFixed strips the sign before breaking a tie
to the larger magnitude, so a value exactly halfway between two tenths
rounds away from zero on both signs. -/
theorem c7_confirmed (q : TemperatureQuery) (su : ℕ → ℚ)
    (pt : TemperaturePoint) (hpt : pt ∈ fetchTemperaturesMock q su) :
    (∀ v, pt.tmin = some v → (10 * v).den = 1) ∧
    (∀ v, pt.tavg = some v → (10 * v).den = 1) ∧
    (∀ v, pt.tmax = some v → (10 * v).den = 1) ∧
    (∀ x : ℚ, jsToFixed1 x = specRound1 x) := by
  have hden : ∀ y v : ℚ, some (jsToFixed1 y) = some v → (10 * v).den = 1 := by
    intro y v hv
    injection hv with hv
    rw [← hv]
    exact jsToFixed1_den _
  have hspec : ∀ x : ℚ, jsToFixed1 x = specRound1 x := by
    intro x
    unfold jsToFixed1 specRound1
    rcases lt_or_le x 0 with hx | hx
    · rw [if_pos hx, if_neg (not_le.2 hx)]
    · rw [if_neg (not_lt.2 hx), if_pos hx]
  rcases fetch_mem_cases q su pt hpt with ⟨h1, h2, h3⟩ | ⟨pre, i, h1, h2, h3⟩
  · refine ⟨fun v hv => ?_, fun v hv => ?_, fun v hv => ?_, hspec⟩
    · exact absurd (h1.symm.trans hv) (by simp)
    · exact absurd (h2.symm.trans hv) (by simp)
    · exact absurd (h3.symm.trans hv) (by simp)
  · exact ⟨fun v hv => hden _ v (h1.symm.trans hv),
      fun v hv => hden _ v (h2.symm.trans hv),
      fun v hv => hden _ v (h3.symm.trans hv), hspec⟩

/-- The one-month query of the C7 and C8 witnesses. -/
def c8Query : TemperatureQuery :=
  { stationId := "STA-5", fromDate := "2020-05-01", toDate := "2020-05-20" }

/-- Its result under constant draws of one half. -/
def c8Out : List TemperaturePoint :=
  fetchTemperaturesMock c8Query (fun _ => 1/2)

/-- Claim C7, witness: the confirmed theorem applied to the first point
of the concrete valid run `c7Query` with draws `c7Supply`: the raw
minimum of that run is exactly -5/4 and the output minimum is -1.3, the
halfway value rounded away from zero, and an exact one-decimal value. -/
theorem c7_witness :
    (10 * ((fetchTemperaturesMock c7Query c7Supply).headI.tmin.getD 0)).den = 1 ∧
    jsToFixed1 (-5/4) = specRound1 (-5/4) ∧
    ((3 : ℚ) - randomBetween (c7Supply 3) 2 5 = -5/4) ∧
    (fetchTemperaturesMock c7Query c7Supply).map TemperaturePoint.tavg = [some 3] ∧
    (fetchTemperaturesMock c7Query c7Supply).map TemperaturePoint.tmin
      = [some (-13/10)] ∧
    (0 ≤ c7Supply 2 ∧ c7Supply 2 < 1) ∧ (0 ≤ c7Supply 3 ∧ c7Supply 3 < 1) := by
  have h := c7_confirmed c7Query c7Supply
    (fetchTemperaturesMock c7Query c7Supply).headI (by decide)
  exact ⟨h.1 _ (by decide), h.2.2.2 (-5/4), by decide, by decide, by decide,
    by decide, by decide⟩

/-- Claim C8 (confirmed): under the Math.random contract, every output
point with all three temperatures present satisfies tmin at most tavg at
most tmax: the raw minimum and maximum are the raw average shifted by
nonnegative draws, and the rounding is monotone.  There is no correction
step anywhere: the values are ordered by construction. -/
theorem c8_confirmed (q : TemperatureQuery) (su : ℕ → ℚ)
    (hsu : ∀ n, 0 ≤ su n ∧ su n < 1)
    (pt : TemperaturePoint) (hpt : pt ∈ fetchTemperaturesMock q su)
    (a b c : ℚ)
    (ha : pt.tmin = some a) (hb : pt.tavg = some b) (hc : pt.tmax = some c) :
    a ≤ b ∧ b ≤ c := by
  rcases fetch_mem_cases q su pt hpt with ⟨h1, h2, h3⟩ | ⟨pre, i, h1, h2, h3⟩
  · exact absurd (h1.symm.trans ha) (by simp)
  · injection h1.symm.trans ha with ha2
    injection h2.symm.trans hb with hb2
    injection h3.symm.trans hc with hc2
    subst ha2 hb2 hc2
    have h3p := (hsu (3 * i + 3)).1
    have h4p := (hsu (3 * i + 4)).1
    constructor
    · apply jsToFixed1_mono
      unfold randomBetween
      nlinarith
    · apply jsToFixed1_mono
      unfold randomBetween
      nlinarith

/-- Claim C8, witness: the ordering applied to the first point of the
concrete run `c8Out`. -/
theorem c8_witness :
    c8Out.headI.tmin.getD 0 ≤ c8Out.headI.tavg.getD 0 ∧
    c8Out.headI.tavg.getD 0 ≤ c8Out.headI.tmax.getD 0 :=
  c8_confirmed c8Query (fun _ => 1/2) (fun _ => ⟨by norm_num, by norm_num⟩)
    c8Out.headI (by decide)
    (c8Out.headI.tmin.getD 0) (c8Out.headI.tavg.getD 0) (c8Out.headI.tmax.getD 0)
    (by decide) (by decide) (by decide)

end Wetter
